import Mathlib

/-!
Verification development for the Concentra desktop voice study-timer
(`concentra_app.py`). The logical core embedded here is:

* `word_to_num` — the duration parser (source lines 49–61);
* `get_voice_input` — one microphone capture attempt (lines 69–94);
* `speak_text` — speech output with its catch-all error handler (lines 32–47);
* `runStep` / `runFrom` — the interaction loop of `VoiceWorker.run`
  (lines 96–128), presented as the state machine
  CollectingDuration → Counting → AwaitingContinueOrStop → (Counting | Terminated).

Numbers are modelled as rationals (`Rat`); the inputs of interest are exact
decimal literals, so no floating-point rounding is involved. External
collaborator calls (text-to-speech, microphone, recognition backend) are
modelled by their outcome alphabets; their emitted messages are recorded as
an effect trace.
-/

/-! ### Python string primitives, modelled over the `List Char` view -/

/-- Model of Python `str.strip()`: drop whitespace from both ends. -/
def pyStrip (s : String) : String :=
  ⟨((s.data.dropWhile Char.isWhitespace).reverse.dropWhile Char.isWhitespace).reverse⟩

/-- Model of Python `str.lower()` (ASCII letters, which is all the program feeds it). -/
def pyLower (s : String) : String :=
  ⟨s.data.map Char.toLower⟩

/-- Model of Python `str.isdigit()` on ASCII text: nonempty and all digits. -/
def pyIsDigitStr (s : String) : Bool :=
  !s.data.isEmpty && s.data.all Char.isDigit

/-- Helper for `pySplit`: accumulate maximal runs of non-whitespace characters. -/
def wordsAux : List Char → List Char → List (List Char)
  | [], acc => if acc.isEmpty then [] else [acc.reverse]
  | c :: cs, acc =>
    if c.isWhitespace then
      if acc.isEmpty then wordsAux cs [] else acc.reverse :: wordsAux cs []
    else
      wordsAux cs (c :: acc)

/-- Model of Python `str.split()` with no argument: split on whitespace runs,
discarding empty pieces. -/
def pySplit (s : String) : List String :=
  (wordsAux s.data []).map (fun l => ⟨l⟩)

/-- Numeric value of a run of ASCII digit characters. -/
def digitsToNat (ds : List Char) : Nat :=
  ds.foldl (fun a c => 10 * a + (c.toNat - 48)) 0

/-- Split a character list into its leading digit run and the rest. -/
def takeDigits : List Char → List Char × List Char
  | [] => ([], [])
  | c :: cs =>
    if c.isDigit then
      let (d, r) := takeDigits cs
      (c :: d, r)
    else
      ([], c :: cs)

/-- Whether `needle` is a leading segment of `hay` (character lists). -/
def startsWithList : List Char → List Char → Bool
  | _, [] => true
  | [], _ :: _ => false
  | c :: cs, d :: ds => c == d && startsWithList cs ds

/-- Whether `needle` occurs contiguously somewhere in the second list. -/
def hasSubList (needle : List Char) : List Char → Bool
  | [] => startsWithList [] needle
  | c :: t => startsWithList (c :: t) needle || hasSubList needle t

/-- Model of Python `sub in hay` on strings: contiguous substring test. -/
def pyContains (hay sub : String) : Bool :=
  hasSubList sub.data hay.data

/-! ### Python `float(str)` on finite decimal literals -/

/-- Scale a rational by an integer power of ten. -/
def scalePow10 (q : Rat) (e : Int) : Rat :=
  if 0 ≤ e then q * (10 : Rat) ^ e.toNat else q / (10 : Rat) ^ (-e).toNat

/-- Parse the optional exponent suffix of a float literal; `[]` means exponent 0. -/
def parseExpSuffix : List Char → Option Int
  | [] => some 0
  | c :: r =>
    if c == 'e' || c == 'E' then
      let (sgn, r2) : Int × List Char :=
        match r with
        | '+' :: q => (1, q)
        | '-' :: q => (-1, q)
        | _ => (1, r)
      let (ds, r3) := takeDigits r2
      if ds.isEmpty || !r3.isEmpty then none else some (sgn * (digitsToNat ds : Int))
    else none

/-- Model of Python `float(s)` restricted to finite decimal literals: surrounding
whitespace, an optional sign, digits with an optional decimal point, and an
optional exponent. The special spellings (`inf`, `nan`, underscore separators)
are outside the inputs this program's claims concern and are treated as parse
failure here. Returns `none` where Python raises `ValueError`. -/
def pyFloat (s : String) : Option Rat :=
  let t := (pyStrip s).data
  let (sgn, rest) : Rat × List Char :=
    match t with
    | '+' :: r => (1, r)
    | '-' :: r => (-1, r)
    | _ => (1, t)
  let (ip, r1) := takeDigits rest
  match r1 with
  | '.' :: r2 =>
    let (fp, r3) := takeDigits r2
    if ip.isEmpty && fp.isEmpty then none
    else
      match parseExpSuffix r3 with
      | some e =>
        some (scalePow10 (sgn * ((digitsToNat ip : Rat) +
          (digitsToNat fp : Rat) / (10 : Rat) ^ fp.length)) e)
      | none => none
  | _ =>
    if ip.isEmpty then none
    else
      match parseExpSuffix r1 with
      | some e => some (scalePow10 (sgn * (digitsToNat ip : Rat)) e)
      | none => none

/-! ### The word-to-number conversion vocabulary -/

/-- Value of a unit/teen/tens vocabulary word (below one hundred). -/
def smallWordValue (w : String) : Option Nat :=
  match w with
  | "zero" => some 0 | "one" => some 1 | "two" => some 2 | "three" => some 3
  | "four" => some 4 | "five" => some 5 | "six" => some 6 | "seven" => some 7
  | "eight" => some 8 | "nine" => some 9 | "ten" => some 10 | "eleven" => some 11
  | "twelve" => some 12 | "thirteen" => some 13 | "fourteen" => some 14
  | "fifteen" => some 15 | "sixteen" => some 16 | "seventeen" => some 17
  | "eighteen" => some 18 | "nineteen" => some 19 | "twenty" => some 20
  | "thirty" => some 30 | "forty" => some 40 | "fifty" => some 50
  | "sixty" => some 60 | "seventy" => some 70 | "eighty" => some 80
  | "ninety" => some 90
  | _ => none

/-- Whether a word belongs to the conversion vocabulary. -/
def isVocabWord (w : String) : Bool :=
  (smallWordValue w).isSome || w == "hundred" || w == "thousand" ||
    w == "million" || w == "billion" || w == "point"

/-- Digit value of a vocabulary word usable after "point" (single digits only). -/
def digitWordValue (w : String) : Option Nat :=
  match smallWordValue w with
  | some v => if v < 10 then some v else none
  | none => none

/-- Combine a run of integer-part vocabulary words into a number: small words
add into the current group, "hundred" multiplies the group, and the larger
scale words close the group into the running total. -/
def accumulateWords : List String → Nat → Nat → Option Nat
  | [], total, cur => some (total + cur)
  | w :: ws, total, cur =>
    match smallWordValue w with
    | some v => accumulateWords ws total (cur + v)
    | none =>
      match w with
      | "hundred" => accumulateWords ws total ((if cur == 0 then 1 else cur) * 100)
      | "thousand" => accumulateWords ws (total + (if cur == 0 then 1 else cur) * 1000) 0
      | "million" => accumulateWords ws (total + (if cur == 0 then 1 else cur) * 1000000) 0
      | "billion" => accumulateWords ws (total + (if cur == 0 then 1 else cur) * 1000000000) 0
      | _ => none

/-- Fractional value of the digit words following "point": the digits read as a
decimal expansion. Any non-digit word makes the fractional part 0. -/
def decimalWordsValue (ws : List String) : Rat :=
  if ws.all (fun w => (digitWordValue w).isSome) then
    ((ws.filterMap digitWordValue).foldl (fun a d => 10 * a + d) 0 : Rat) /
      (10 : Rat) ^ ws.length
  else 0

/-- Modelled from the spec: the word-to-number conversion performed by the
external `word2number` library (`w2n.word_to_num`), which is not part of this
repository. The spec (§4.1, §8) gives its contract: hyphens become spaces, a
pure digit string is its numeric value, words outside the vocabulary are
ignored, an utterance with no vocabulary word at all is a conversion failure
(the library's `ValueError`, which the caller turns into the `None` sentinel),
and recognized phrases map to their value ("ten" → 10, "twenty five" → 25),
with "point" introducing spoken decimal digits. -/
def w2nConvert (w : String) : Option Rat :=
  let s := pyLower ⟨w.data.map (fun c => if c == '-' then ' ' else c)⟩
  if pyIsDigitStr s then some (digitsToNat s.data : Rat)
  else
    let clean := (pySplit s).filter isVocabWord
    if clean.isEmpty then none
    else
      let intWords := clean.takeWhile (fun x => x != "point")
      let decWords := (clean.dropWhile (fun x => x != "point")).drop 1
      match accumulateWords intWords 0 0 with
      | some n => some ((n : Rat) + decimalWordsValue decWords)
      | none => none

/-! ### The duration parser (`word_to_num`, source lines 49–61) -/

/-- A Python runtime value, as far as `word_to_num`'s `isinstance` check can
distinguish one: a string or one of the non-string shapes it may be handed. -/
inductive PyValue
  | str (s : String)
  | intObj (n : Int)
  | floatObj (q : Rat)
  | noneObj
  | boolObj (b : Bool)
deriving DecidableEq

/-- The program's `word_to_num(word)`: `None` for any non-string; otherwise
lowercase then strip, try `float(word)` first, and only on that failing try the
word-to-number conversion, whose failure is again `None`. -/
def word_to_num (v : PyValue) : Option Rat :=
  match v with
  | .str w0 =>
    match pyFloat (pyStrip (pyLower w0)) with
    | some x => some x
    | none => w2nConvert (pyStrip (pyLower w0))
  | _ => none

/-- The Duration Parser acceptance step of `VoiceWorker.run` (lines 105–107):
`word_to_num` followed by the strict-positivity guard
`minutes is not None and minutes > 0`. -/
def durationParse (s : String) : Option Rat :=
  match word_to_num (.str s) with
  | some m => if 0 < m then some m else none
  | none => none

/-! ### Collaborator outcome alphabets and the effect trace -/

/-- Outcome of the recognition backend on one captured audio clip
(`r.recognize_google(audio)` in lines 82–94). -/
inductive RecogOutcome
  | success (text : String)
  | unknownValue
  | requestError
deriving DecidableEq

/-- Outcome of one microphone listen (`r.listen` in lines 77–81): either the
bounded wait elapsed, or audio was captured and handed to recognition. -/
inductive CaptureOutcome
  | waitTimeout
  | captured (r : RecogOutcome)
deriving DecidableEq

/-- Outcome of one text-to-speech synthesis/playback attempt inside
`speak_text` (lines 34–46): success, or some raised error with its message. -/
inductive SpeakOutcome
  | ok
  | err (msg : String)
deriving DecidableEq

/-- Observable effects of the loop: spoken output requests, status messages
emitted to the shell, console prints, the blocking sleep, one microphone
capture attempt, and the completion signal (`finished.emit()`). -/
inductive Effect
  | speak (t : String)
  | status (t : String)
  | consolePrint (t : String)
  | sleepSeconds (q : Rat)
  | capture
  | doneSignal
deriving DecidableEq

/-- The program's `speak_text(text)` (lines 32–47): the whole body sits in
`try: ... except Exception as e: print(...)`, so every synthesis/playback error
becomes a console message (`Error in speak_text: {e}`) and the function
returns normally for every outcome. -/
def speak_text (text : String) : SpeakOutcome → List Effect
  | .ok => [Effect.speak text]
  | .err e => [Effect.consolePrint ("Error in speak_text: " ++ e)]

/-- The program's `VoiceWorker.get_voice_input(prompt_text)` (lines 69–94):
speak the prompt, announce listening, attempt one capture, and map each of the
three failure outcomes (`sr.WaitTimeoutError`, `sr.UnknownValueError`,
`sr.RequestError`) to its own status message and the shared `None` result;
only a successful recognition returns text. Speech requests are recorded as
`Effect.speak` (the call's internal error handling is `speak_text` above). -/
def get_voice_input (prompt_text : String) (o : CaptureOutcome) :
    List Effect × Option String :=
  let pre := [Effect.speak prompt_text, Effect.status "Listening...",
    Effect.speak "Listening", Effect.capture]
  match o with
  | .waitTimeout =>
    (pre ++ [Effect.status "Listening timed out. Try again."], none)
  | .captured (.success t) =>
    (pre ++ [Effect.status ("You said: " ++ t), Effect.speak ("You said " ++ t)],
      some t)
  | .captured .unknownValue =>
    (pre ++ [Effect.status "Could not understand audio. Please try again.",
      Effect.speak "Sorry, I did not understand."], none)
  | .captured .requestError =>
    (pre ++ [Effect.status "Speech service error. Please check connection.",
      Effect.speak "Sorry, there is a problem with the speech service."], none)

/-! ### The interaction loop of `VoiceWorker.run` (lines 96–128) -/

/-- States of the interaction loop: the first `while` (collecting a duration,
lines 101–111), the blocking sleep (line 117), the continue/stop decision
(lines 120–127), and the exit (line 128). The `counting` and
`awaitingContinueOrStop` states carry `original_minutes`. -/
inductive LoopState
  | collectingDuration
  | counting (target : Rat)
  | awaitingContinueOrStop (target : Rat)
  | terminated
deriving DecidableEq

/-- One transition of the loop, with the effects it emits. The capture states
consume one `CaptureOutcome`; `counting` consumes none (the outcome argument is
ignored there) and `terminated` is absorbing. Transcribed from lines 101–128:

* collecting: a failed capture is `continue` (line 103–104); a captured
  utterance goes through `word_to_num` and the `minutes > 0` guard
  (lines 105–108), success announcing the timer (lines 113–114), failure
  re-prompting (lines 109–111);
* counting: `time.sleep(original_minutes * 60)` then the time's-up
  announcements (lines 117–119);
* awaiting: `if response and "stop" in response.lower()` terminates with the
  farewell and the completion signal (lines 121–124, 128); anything else —
  including a failed capture — continues with the same target (lines 125–127). -/
def runStep : LoopState → CaptureOutcome → LoopState × List Effect
  | .collectingDuration, o =>
    match get_voice_input "Set alarm time in minutes" o with
    | (tr, none) => (.collectingDuration, tr)
    | (tr, some u) =>
      match durationParse u with
      | some m =>
        (.counting m, tr ++
          [Effect.status ("Timer set for " ++ toString m ++ " minutes."),
           Effect.speak ("Okay, I will remind you in " ++ toString m ++ " minutes.")])
      | none =>
        (.collectingDuration, tr ++
          [Effect.status "Invalid input. Please say a positive number.",
           Effect.speak "Invalid input. Please say a number."])
  | .counting m, _ =>
    (.awaitingContinueOrStop m,
      [Effect.sleepSeconds (m * 60),
       Effect.status "Time\x27s up! Say \x27stop\x27 to end.",
       Effect.speak "Hey, are you studying? I’m just here to remind you — stay focused, you can do it! Do you want to continue with the same timer or stop? Say \x27stop\x27 to end, or say nothing to continue."])
  | .awaitingContinueOrStop m, o =>
    match get_voice_input "Continue or stop?" o with
    | (tr, some r) =>
      if r != "" && pyContains (pyLower r) "stop" then
        (.terminated, tr ++
          [Effect.status "Alarm stopped. Great work!",
           Effect.speak "Okay, stopping the alarm. Have a great day!",
           Effect.doneSignal])
      else
        (.counting m, tr ++
          [Effect.status ("Continuing timer for " ++ toString m ++ " minutes."),
           Effect.speak ("Okay, continuing for another " ++ toString m ++ " minutes.")])
    | (tr, none) =>
      (.counting m, tr ++
        [Effect.status ("Continuing timer for " ++ toString m ++ " minutes."),
         Effect.speak ("Okay, continuing for another " ++ toString m ++ " minutes.")])
  | .terminated, _ => (.terminated, [])

/-- Iterate the loop over a list of capture outcomes. -/
def runFrom (s : LoopState) : List CaptureOutcome → LoopState
  | [] => s
  | o :: os => runFrom (runStep s o).1 os

/-- The target attribute of a state equals a fixed session target `m`
(vacuously so for `terminated`, impossible for `collectingDuration`). -/
def targetLocked (m : Rat) : LoopState → Prop
  | .collectingDuration => False
  | .counting m2 => m2 = m
  | .awaitingContinueOrStop m2 => m2 = m
  | .terminated => True

/-- Any target carried by a state is strictly positive. -/
def targetPositive : LoopState → Prop
  | .counting m => 0 < m
  | .awaitingContinueOrStop m => 0 < m
  | .collectingDuration => True
  | .terminated => True

theorem durationParse_pos {u : String} {m : Rat} (h : durationParse u = some m) :
    0 < m := by
  unfold durationParse at h
  split at h
  · split at h
    · cases h
      assumption
    · exact Option.noConfusion h
  · exact Option.noConfusion h

theorem runStep_targetLocked (m : Rat) (s : LoopState) (o : CaptureOutcome)
    (h : targetLocked m s) : targetLocked m (runStep s o).1 := by
  cases s with
  | collectingDuration => exact h.elim
  | counting m2 => simpa [runStep, targetLocked] using h
  | awaitingContinueOrStop m2 =>
    cases o with
    | waitTimeout => simpa [runStep, get_voice_input, targetLocked] using h
    | captured r =>
      cases r with
      | success t =>
        by_cases hc : (t != "" && pyContains (pyLower t) "stop") = true
        · simp [runStep, get_voice_input, hc, targetLocked]
        · simpa [runStep, get_voice_input, hc, targetLocked] using h
      | unknownValue => simpa [runStep, get_voice_input, targetLocked] using h
      | requestError => simpa [runStep, get_voice_input, targetLocked] using h
  | terminated => simp [runStep, targetLocked]

theorem runFrom_targetLocked (m : Rat) (os : List CaptureOutcome) (s : LoopState)
    (h : targetLocked m s) : targetLocked m (runFrom s os) := by
  induction os generalizing s with
  | nil => exact h
  | cons o os ih => exact ih _ (runStep_targetLocked m s o h)

theorem runStep_targetPositive (s : LoopState) (o : CaptureOutcome)
    (h : targetPositive s) : targetPositive (runStep s o).1 := by
  cases s with
  | collectingDuration =>
    cases o with
    | waitTimeout => simp [runStep, get_voice_input, targetPositive]
    | captured r =>
      cases r with
      | success t =>
        cases hd : durationParse t with
        | none => simp [runStep, get_voice_input, hd, targetPositive]
        | some m =>
          simp [runStep, get_voice_input, hd, targetPositive]
          exact durationParse_pos hd
      | unknownValue => simp [runStep, get_voice_input, targetPositive]
      | requestError => simp [runStep, get_voice_input, targetPositive]
  | counting m => simpa [runStep, targetPositive] using h
  | awaitingContinueOrStop m =>
    cases o with
    | waitTimeout => simpa [runStep, get_voice_input, targetPositive] using h
    | captured r =>
      cases r with
      | success t =>
        by_cases hc : (t != "" && pyContains (pyLower t) "stop") = true
        · simp [runStep, get_voice_input, hc, targetPositive]
        · simpa [runStep, get_voice_input, hc, targetPositive] using h
      | unknownValue => simpa [runStep, get_voice_input, targetPositive] using h
      | requestError => simpa [runStep, get_voice_input, targetPositive] using h
  | terminated => simp [runStep, targetPositive]

theorem runFrom_targetPositive (os : List CaptureOutcome) (s : LoopState)
    (h : targetPositive s) : targetPositive (runFrom s os) := by
  induction os generalizing s with
  | nil => exact h
  | cons o os ih => exact ih _ (runStep_targetPositive s o h)

/-- C1: for every input string that is zero, negative, or non-numeric (e.g.
"0", "-5", "banana"), the Duration Parser signals parse failure: the
acceptance step `durationParse` returns the `none` sentinel rather than a
number — both on the three sample inputs and in general whenever
`word_to_num` fails or yields a non-positive value. -/
theorem claim_C1_nonpositive_or_nonnumeric_rejected :
    durationParse "0" = none ∧ durationParse "-5" = none ∧
    durationParse "banana" = none ∧
    (∀ s : String, word_to_num (.str s) = none → durationParse s = none) ∧
    (∀ (s : String) (m : Rat), word_to_num (.str s) = some m → m ≤ 0 →
      durationParse s = none) := by
  refine ⟨by with_unfolding_all decide, by with_unfolding_all decide,
    by with_unfolding_all decide, ?_, ?_⟩
  · intro s h
    unfold durationParse
    rw [h]
  · intro s m h hm
    unfold durationParse
    rw [h]
    show (if 0 < m then some m else none) = none
    exact if_neg (not_lt.mpr hm)

/-- Witness for C1: the parser yields 0 on "0", 0 is non-positive, and the
Duration Parser rejects it. -/
theorem claim_C1_witness :
    word_to_num (.str "0") = some 0 ∧ (0 : Rat) ≤ 0 ∧ durationParse "0" = none :=
  ⟨by with_unfolding_all decide, le_refl 0,
    claim_C1_nonpositive_or_nonnumeric_rejected.2.2.2.2 "0" 0
      (by with_unfolding_all decide) (le_refl 0)⟩

/-- C9: for every input value that is not a string, `word_to_num` returns the
failure sentinel `none` without raising; the parser is total over arbitrary
input values. -/
theorem claim_C9_nonstring_input_yields_none :
    ∀ v : PyValue, (∀ s : String, v ≠ PyValue.str s) → word_to_num v = none := by
  intro v h
  cases v with
  | str s => exact absurd rfl (h s)
  | intObj n => rfl
  | floatObj q => rfl
  | noneObj => rfl
  | boolObj b => rfl

/-- Witness for C9: the Python `None` value is not a string and parses to the
sentinel. -/
theorem claim_C9_witness : word_to_num PyValue.noneObj = none :=
  claim_C9_nonstring_input_yields_none PyValue.noneObj (fun _ h => PyValue.noConfusion h)

/-- C6: numeral strings come back as the parsed float unchanged, recognized
numeric-word inputs come back as their vocabulary value, the input is
normalized to lowercase and trimmed, the direct numeric parse is attempted
first, and word-to-number conversion runs only if the direct parse fails. -/
theorem claim_C6_numeral_and_word_inputs_parsed :
    (∀ (s : String) (x : Rat), pyFloat (pyStrip (pyLower s)) = some x →
      word_to_num (.str s) = some x) ∧
    (∀ s : String, pyFloat (pyStrip (pyLower s)) = none →
      word_to_num (.str s) = w2nConvert (pyStrip (pyLower s))) ∧
    word_to_num (.str "15") = some 15 ∧ word_to_num (.str "3.5") = some (7 / 2) ∧
    word_to_num (.str "ten") = some 10 ∧ word_to_num (.str "twenty five") = some 25 := by
  refine ⟨?_, ?_, by with_unfolding_all decide, by with_unfolding_all decide,
    by with_unfolding_all decide, by with_unfolding_all decide⟩
  · intro s x h
    show (match pyFloat (pyStrip (pyLower s)) with
      | some y => some y
      | none => w2nConvert (pyStrip (pyLower s))) = some x
    rw [h]
  · intro s h
    show (match pyFloat (pyStrip (pyLower s)) with
      | some y => some y
      | none => w2nConvert (pyStrip (pyLower s))) = w2nConvert (pyStrip (pyLower s))
    rw [h]

/-- Witness for C6: "15" direct-parses to 15 and the parser returns it unchanged. -/
theorem claim_C6_witness :
    pyFloat (pyStrip (pyLower "15")) = some 15 ∧ word_to_num (.str "15") = some 15 :=
  ⟨by with_unfolding_all decide,
    claim_C6_numeral_and_word_inputs_parsed.1 "15" 15 (by with_unfolding_all decide)⟩

/-- C2: from AwaitingContinueOrStop, every step either terminates or returns
to Counting with the very same target; and starting a session at Counting with
target `m`, any sequence of continue cycles keeps the target locked to `m` —
it never drifts. -/
theorem claim_C2_target_never_drifts :
    (∀ (m : Rat) (o : CaptureOutcome),
      (runStep (.awaitingContinueOrStop m) o).1 = .terminated ∨
      (runStep (.awaitingContinueOrStop m) o).1 = .counting m) ∧
    (∀ (m : Rat) (os : List CaptureOutcome),
      targetLocked m (runFrom (.counting m) os)) := by
  constructor
  · intro m o
    cases o with
    | waitTimeout => right; simp [runStep, get_voice_input]
    | captured r =>
      cases r with
      | success t =>
        by_cases hc : (t != "" && pyContains (pyLower t) "stop") = true
        · left; simp [runStep, get_voice_input, hc]
        · right; simp [runStep, get_voice_input, hc]
      | unknownValue => right; simp [runStep, get_voice_input]
      | requestError => right; simp [runStep, get_voice_input]
  · intro m os
    exact runFrom_targetLocked m os _ rfl

/-- Witness for C2: one timed-out continue cycle leaves the target locked at 1. -/
theorem claim_C2_witness :
    targetLocked 1 (runFrom (.counting 1) [CaptureOutcome.waitTimeout]) :=
  claim_C2_target_never_drifts.2 1 [CaptureOutcome.waitTimeout]

/-- C3: in AwaitingContinueOrStop a captured utterance terminates the loop
exactly when it contains "stop" case-insensitively; a terminating step emits
the final acknowledgement status and the completion signal; and Terminated
makes no further transitions. -/
theorem claim_C3_stop_terminates_iff :
    (∀ (m : Rat) (t : String),
      (runStep (.awaitingContinueOrStop m) (.captured (.success t))).1 = .terminated ↔
        pyContains (pyLower t) "stop" = true) ∧
    (∀ (m : Rat) (o : CaptureOutcome),
      (runStep (.awaitingContinueOrStop m) o).1 = .terminated →
        Effect.status "Alarm stopped. Great work!" ∈ (runStep (.awaitingContinueOrStop m) o).2 ∧
        Effect.doneSignal ∈ (runStep (.awaitingContinueOrStop m) o).2) ∧
    (∀ o : CaptureOutcome, runStep .terminated o = (.terminated, [])) := by
  refine ⟨?_, ?_, fun o => rfl⟩
  · intro m t
    constructor
    · intro h
      by_cases hb : (t != "" && pyContains (pyLower t) "stop") = true
      · exact (Bool.and_eq_true _ _ |>.mp hb).2
      · simp [runStep, get_voice_input, hb] at h
    · intro hs
      have ht : t ≠ "" := by
        intro he
        subst he
        exact absurd hs (by decide)
      have hb : (t != "" && pyContains (pyLower t) "stop") = true := by
        simp [Bool.and_eq_true, bne_iff_ne, ht, hs]
      simp [runStep, get_voice_input, hb]
  · intro m o
    cases o with
    | waitTimeout => intro h; simp [runStep, get_voice_input] at h
    | captured r =>
      cases r with
      | success t =>
        intro h
        by_cases hb : (t != "" && pyContains (pyLower t) "stop") = true
        · simp [runStep, get_voice_input, hb]
        · simp [runStep, get_voice_input, hb] at h
      | unknownValue => intro h; simp [runStep, get_voice_input] at h
      | requestError => intro h; simp [runStep, get_voice_input] at h

/-- Witness for C3: the utterance "stop" terminates a session with target 1
and the step emits the acknowledgement and the completion signal. -/
theorem claim_C3_witness :
    (runStep (.awaitingContinueOrStop 1) (.captured (.success "stop"))).1 = .terminated ∧
    Effect.status "Alarm stopped. Great work!" ∈
      (runStep (.awaitingContinueOrStop 1) (.captured (.success "stop"))).2 ∧
    Effect.doneSignal ∈
      (runStep (.awaitingContinueOrStop 1) (.captured (.success "stop"))).2 :=
  ⟨by decide,
    (claim_C3_stop_terminates_iff.2.1 1 (.captured (.success "stop")) (by decide)).1,
    (claim_C3_stop_terminates_iff.2.1 1 (.captured (.success "stop")) (by decide)).2⟩

/-- C4: in AwaitingContinueOrStop, every failed capture (timeout,
unintelligible speech, or service error — i.e. no text returned by
`get_voice_input`) is treated as "continue": the loop transitions back to
Counting with the same target. -/
theorem claim_C4_failed_capture_means_continue :
    ∀ (m : Rat) (o : CaptureOutcome),
      (get_voice_input "Continue or stop?" o).2 = none →
      (runStep (.awaitingContinueOrStop m) o).1 = .counting m := by
  intro m o h
  cases o with
  | waitTimeout => simp [runStep, get_voice_input]
  | captured r =>
    cases r with
    | success t => simp [get_voice_input] at h
    | unknownValue => simp [runStep, get_voice_input]
    | requestError => simp [runStep, get_voice_input]

/-- Witness for C4: a capture timeout during the continue/stop check returns
to Counting with the same target 1. -/
theorem claim_C4_witness :
    (get_voice_input "Continue or stop?" CaptureOutcome.waitTimeout).2 = none ∧
    (runStep (.awaitingContinueOrStop 1) CaptureOutcome.waitTimeout).1 = .counting 1 :=
  ⟨rfl, claim_C4_failed_capture_means_continue 1 CaptureOutcome.waitTimeout rfl⟩

/-- C5: the loop leaves CollectingDuration only on an utterance that parses to
a strictly positive number, which becomes the session target; any number of
failed captures in a row keeps it in CollectingDuration (no retry limit), and
the target is strictly positive whenever the countdown phase is reached. -/
theorem claim_C5_collecting_advances_only_on_positive :
    (∀ o : CaptureOutcome,
      (runStep .collectingDuration o).1 = .collectingDuration ∨
      ∃ (u : String) (m : Rat),
        (get_voice_input "Set alarm time in minutes" o).2 = some u ∧
        durationParse u = some m ∧ 0 < m ∧
        (runStep .collectingDuration o).1 = .counting m) ∧
    (∀ n : Nat,
      runFrom .collectingDuration (List.replicate n CaptureOutcome.waitTimeout) =
        .collectingDuration) ∧
    (∀ (os : List CaptureOutcome) (m : Rat),
      (runFrom .collectingDuration os = .counting m ∨
       runFrom .collectingDuration os = .awaitingContinueOrStop m) → 0 < m) := by
  refine ⟨?_, ?_, ?_⟩
  · intro o
    cases o with
    | waitTimeout => left; simp [runStep, get_voice_input]
    | captured r =>
      cases r with
      | success t =>
        cases hd : durationParse t with
        | none => left; simp [runStep, get_voice_input, hd]
        | some m =>
          right
          exact ⟨t, m, by simp [get_voice_input], hd, durationParse_pos hd,
            by simp [runStep, get_voice_input, hd]⟩
      | unknownValue => left; simp [runStep, get_voice_input]
      | requestError => left; simp [runStep, get_voice_input]
  · intro n
    induction n with
    | zero => rfl
    | succ k ih =>
      have hstep : (runStep .collectingDuration CaptureOutcome.waitTimeout).1 =
          .collectingDuration := by simp [runStep, get_voice_input]
      calc runFrom .collectingDuration
            (List.replicate (k + 1) CaptureOutcome.waitTimeout)
          = runFrom (runStep .collectingDuration CaptureOutcome.waitTimeout).1
              (List.replicate k CaptureOutcome.waitTimeout) := rfl
        _ = runFrom .collectingDuration (List.replicate k CaptureOutcome.waitTimeout) := by
              rw [hstep]
        _ = .collectingDuration := ih
  · intro os m h
    have hp := runFrom_targetPositive os .collectingDuration trivial
    cases h with
    | inl he => rw [he] at hp; exact hp
    | inr he => rw [he] at hp; exact hp

/-- Witness for C5: the utterance "ten" advances CollectingDuration to
Counting with the positive target 10. -/
theorem claim_C5_witness :
    runFrom .collectingDuration [CaptureOutcome.captured (RecogOutcome.success "ten")] =
      .counting 10 ∧ (0 : Rat) < 10 :=
  ⟨by with_unfolding_all decide,
    claim_C5_collecting_advances_only_on_positive.2.2
      [CaptureOutcome.captured (RecogOutcome.success "ten")] 10
      (Or.inl (by with_unfolding_all decide))⟩

/-- C7: for a session target of `m` minutes, the Counting step blocks for a
sleep of `m * 60` seconds, then emits the time's-up status and the spoken
prompt — in exactly that order — and transitions to AwaitingContinueOrStop;
no capture is attempted during Counting. -/
theorem claim_C7_counting_sleeps_then_announces :
    ∀ (m : Rat) (o : CaptureOutcome),
      runStep (.counting m) o =
        (.awaitingContinueOrStop m,
          [Effect.sleepSeconds (m * 60),
           Effect.status "Time\x27s up! Say \x27stop\x27 to end.",
           Effect.speak "Hey, are you studying? I’m just here to remind you — stay focused, you can do it! Do you want to continue with the same timer or stop? Say \x27stop\x27 to end, or say nothing to continue."]) ∧
      Effect.capture ∉ (runStep (.counting m) o).2 := by
  intro m o
  refine ⟨rfl, ?_⟩
  simp [runStep]

/-- Witness for C7: a Counting step at target 1 attempts no capture. -/
theorem claim_C7_witness :
    Effect.capture ∉ (runStep (.counting 1) CaptureOutcome.waitTimeout).2 :=
  (claim_C7_counting_sleeps_then_announces 1 CaptureOutcome.waitTimeout).2

/-- C8: collaborator errors never escape the loop. The catch-all handler of
`speak_text` turns any synthesis/playback error into a console message and
returns normally; every failed capture outcome produces a status message and
the `none` result; and the loop consumes that result by staying in
CollectingDuration or continuing to Counting, never by terminating the
process. -/
theorem claim_C8_collaborator_errors_nonfatal :
    (∀ t e : String, speak_text t (SpeakOutcome.err e) =
      [Effect.consolePrint ("Error in speak_text: " ++ e)]) ∧
    (∀ (t : String) (o : SpeakOutcome), speak_text t o = [Effect.speak t] ∨
      ∃ e : String, o = SpeakOutcome.err e ∧
        speak_text t o = [Effect.consolePrint ("Error in speak_text: " ++ e)]) ∧
    (∀ (p : String) (o : CaptureOutcome), (get_voice_input p o).2 = none →
      ∃ msg : String, Effect.status msg ∈ (get_voice_input p o).1) ∧
    (∀ o : CaptureOutcome, (get_voice_input "Set alarm time in minutes" o).2 = none →
      (runStep .collectingDuration o).1 = .collectingDuration) ∧
    (∀ (m : Rat) (o : CaptureOutcome),
      (get_voice_input "Continue or stop?" o).2 = none →
      (runStep (.awaitingContinueOrStop m) o).1 = .counting m) := by
  refine ⟨fun t e => rfl, ?_, ?_, ?_, ?_⟩
  · intro t o
    cases o with
    | ok => exact Or.inl rfl
    | err e => exact Or.inr ⟨e, rfl, rfl⟩
  · intro p o h
    cases o with
    | waitTimeout =>
      exact ⟨"Listening timed out. Try again.", by simp [get_voice_input]⟩
    | captured r =>
      cases r with
      | success t => simp [get_voice_input] at h
      | unknownValue =>
        exact ⟨"Could not understand audio. Please try again.", by simp [get_voice_input]⟩
      | requestError =>
        exact ⟨"Speech service error. Please check connection.", by simp [get_voice_input]⟩
  · intro o h
    cases o with
    | waitTimeout => simp [runStep, get_voice_input]
    | captured r =>
      cases r with
      | success t => simp [get_voice_input] at h
      | unknownValue => simp [runStep, get_voice_input]
      | requestError => simp [runStep, get_voice_input]
  · intro m o h
    cases o with
    | waitTimeout => simp [runStep, get_voice_input]
    | captured r =>
      cases r with
      | success t => simp [get_voice_input] at h
      | unknownValue => simp [runStep, get_voice_input]
      | requestError => simp [runStep, get_voice_input]

/-- Witness for C8: a recognition service error during CollectingDuration is
absorbed — the capture returns the sentinel and the loop stays collecting. -/
theorem claim_C8_witness :
    (get_voice_input "Set alarm time in minutes"
      (CaptureOutcome.captured RecogOutcome.requestError)).2 = none ∧
    (runStep .collectingDuration
      (CaptureOutcome.captured RecogOutcome.requestError)).1 = .collectingDuration :=
  ⟨rfl, claim_C8_collaborator_errors_nonfatal.2.2.2.1
    (CaptureOutcome.captured RecogOutcome.requestError) rfl⟩

/-- C10: a capture attempt returns either the transcribed text or the single
sentinel `none`; all three failure outcomes collapse to the same `none`
result, and only the emitted status traces distinguish them. -/
theorem claim_C10_failures_collapse_to_none :
    (∀ (p t : String), (get_voice_input p (.captured (.success t))).2 = some t) ∧
    (∀ p : String,
      (get_voice_input p .waitTimeout).2 = none ∧
      (get_voice_input p (.captured .unknownValue)).2 = none ∧
      (get_voice_input p (.captured .requestError)).2 = none) ∧
    (∀ p : String,
      (get_voice_input p .waitTimeout).1 ≠ (get_voice_input p (.captured .unknownValue)).1 ∧
      (get_voice_input p .waitTimeout).1 ≠ (get_voice_input p (.captured .requestError)).1 ∧
      (get_voice_input p (.captured .unknownValue)).1 ≠
        (get_voice_input p (.captured .requestError)).1) := by
  refine ⟨fun p t => rfl, fun p => ⟨rfl, rfl, rfl⟩, fun p => ⟨?_, ?_, ?_⟩⟩
  · simp [get_voice_input]
  · simp [get_voice_input]
  · simp [get_voice_input]

/-- Witness for C10: a successful capture hands back the transcribed text. -/
theorem claim_C10_witness :
    (get_voice_input "Continue or stop?" (.captured (.success "five"))).2 = some "five" :=
  claim_C10_failures_collapse_to_none.1 "Continue or stop?" "five"
